import Mathlib

/-!
Shallow embedding of `src/src/data/data_channel/mod.rs` (the WebRTC
`DataChannel` wrapper over an SCTP transport) and proofs about it.

The channel talks to two external collaborators that live outside this
repository (the `data` crate's stream object and the `SCTPTransport`
session); they are modelled through the narrow interface the channel
actually consumes: a stream carries a buffered-amount-low threshold, an
optional low-watermark callback, a write log and a close flag; a session
answers whether an association exists, allocates a channel identifier and
either completes or fails a stream dial.

Callbacks are opaque values identified by a `Nat` tag: the channel never
inspects a callback, it only stores, takes and invokes it, so the tag
model is faithful. Invocations are recorded as explicit events, each
carrying the value of the shared `ready_state` cell at the moment the
callback starts, which is what a concurrent observer inside the callback
would read.
-/

/-- Lifecycle states of a data channel. Modelled from the spec: the
`data_channel_state` module is not among the provided sources; spec section 3
lists the four states used by the core. -/
inductive DataChannelState where
  | Connecting
  | Open
  | Closing
  | Closed
deriving DecidableEq

/-- Channel types of the `data` crate's open message (external collaborator),
as matched on in `open` (lines 116-140 of mod.rs). -/
inductive ChannelType where
  | Reliable
  | ReliableUnordered
  | PartialReliableRexmit
  | PartialReliableRexmitUnordered
  | PartialReliableTimed
  | PartialReliableTimedUnordered
deriving DecidableEq

/-- Modelled from the spec: error kinds of `crate::error` (not among the
provided sources), listed in spec section 7. `TransportError` stands for the
opaque error surfaced verbatim from the session or stream on identifier
allocation or dial failure. -/
inductive Err where
  | ErrSCTPNotEstablished
  | ErrClosedPipe
  | ErrDetachNotEnabled
  | ErrDetachBeforeOpened
  | TransportError
deriving DecidableEq

/-- Decidable equality for `Except` results, so that concrete runs of the
fallible operations can be checked by evaluation. -/
instance exceptDecEq {e a : Type} [DecidableEq e] [DecidableEq a] :
    DecidableEq (Except e a) := fun x y =>
  match x, y with
  | Except.error e1, Except.error e2 =>
      match decEq e1 e2 with
      | isTrue h => isTrue (h ▸ rfl)
      | isFalse h => isFalse (fun hc => h (Except.error.inj hc))
  | Except.error _, Except.ok _ => isFalse (fun hc => Except.noConfusion hc)
  | Except.ok _, Except.error _ => isFalse (fun hc => Except.noConfusion hc)
  | Except.ok a1, Except.ok a2 =>
      match decEq a1 a2 with
      | isTrue h => isTrue (h ▸ rfl)
      | isFalse h => isFalse (fun hc => h (Except.ok.inj hc))

/-- Error type returned by a stream read, as tested by
`sctp::error::Error::ErrStreamClosed.equal(&err)` in the read loop: the
channel only ever asks whether the failure is the expected
stream-already-closed condition. -/
structure StreamErr where
  is_stream_closed : Bool
deriving DecidableEq

/-- Model of the external `data::data_channel::DataChannel` stream object,
through the interface mod.rs consumes: threshold get/set, low-watermark
callback registration, a write log for `write_data_channel`, a buffered
amount and a close flag. -/
structure DataStream where
  buffered_amount_low_threshold : Nat := 0
  on_low : Option Nat := none
  buffered_amount : Nat := 0
  writes : List (List Nat × Bool) := []
  close_called : Bool := false
deriving DecidableEq

/-- Model of the external `SCTPTransport` session, through the interface
`open` consumes: `association()` presence, the outcome of
`generate_and_set_data_channel_id` (`none` models its error path) and
whether `DataChannel::dial` fails. -/
structure Session where
  has_association : Bool
  alloc_id : Option Nat
  dial_fails : Bool := false
deriving DecidableEq

/-- Modelled from the spec: the `data_channel_parameters` module is not among
the provided sources; the fields are the ones `DataChannel::new` reads
(spec section 6: label, protocol, ordered, reliability caps, negotiated,
optional pre-assigned identifier). -/
structure DataChannelParameters where
  label : String
  protocol : String
  ordered : Bool
  max_packet_lifetime : Nat
  max_retransmits : Nat
  negotiated : Bool
  id : Nat
deriving DecidableEq

/-- The `DataChannel` struct of mod.rs. Handler slots hold an optional
callback tag; `setting_engine_detach` models
`setting_engine.detach.data_channels`, the only setting-engine field the
core reads. `on_buffered_amount_low_slot` is the `on_buffered_amount_low`
mutex field of the struct (line 71 of mod.rs). -/
structure DataChannel where
  stats_id : String
  label : String
  ordered : Bool
  max_packet_lifetime : Nat
  max_retransmits : Nat
  protocol : String
  negotiated : Bool
  id : Nat
  ready_state : DataChannelState
  buffered_amount_low_threshold : Nat
  detach_called : Bool
  on_message_handler : Option Nat := none
  on_open_handler : Option Nat := none
  on_close_handler : Option Nat := none
  on_error_handler : Option Nat := none
  on_buffered_amount_low_slot : Option Nat := none
  sctp_transport : Option Session := none
  data_channel : Option DataStream := none
  setting_engine_detach : Bool
deriving DecidableEq

/-- Configuration handed to the stream dial (`data::data_channel::Config`,
built at lines 142-149 of mod.rs). -/
structure Config where
  channel_type : ChannelType
  priority : Nat
  reliability_parameter : Nat
  label : String
  protocol : String
  negotiated : Bool
deriving DecidableEq

/-- External constant `CHANNEL_PRIORITY_NORMAL` of the `data` crate; its
exact value is immaterial to the channel logic. -/
def CHANNEL_PRIORITY_NORMAL : Nat := 256

/-- Observable effects of `open` / `handle_open`: the stream dial (with the
identifier and configuration used), an on-open callback invocation (with
the `ready_state` value the callback observes on entry), and the spawn of
the background read loop. -/
inductive OpenEffect where
  | dialed (id : Nat) (cfg : Config)
  | invoked_on_open (f : Nat) (observed : DataChannelState)
  | spawned_read_loop
deriving DecidableEq

/-- `DataChannel::new` (lines 82-102 of mod.rs): a pure configuration object
in the `Connecting` state, before any networking exists. `now_nanos` stands
for the clock read used only to format the diagnostic `stats_id`. -/
def DataChannel.new (params : DataChannelParameters)
    (setting_engine_detach : Bool) (now_nanos : Nat) : DataChannel :=
  { stats_id := "DataChannel-" ++ toString now_nanos
    label := params.label
    protocol := params.protocol
    negotiated := params.negotiated
    id := params.id
    ordered := params.ordered
    max_packet_lifetime := params.max_packet_lifetime
    max_retransmits := params.max_retransmits
    ready_state := DataChannelState.Connecting
    buffered_amount_low_threshold := 0
    detach_called := false
    setting_engine_detach := setting_engine_detach }

/-- `set_ready_state` (lines 531-533 of mod.rs). -/
def DataChannel.set_ready_state (c : DataChannel) (r : DataChannelState) :
    DataChannel :=
  { c with ready_state := r }

/-- The reliability negotiation inside `open` (lines 116-140 of mod.rs),
mapping the immutable reliability configuration to the channel type and
reliability parameter handed to the dial. The `as u32` widening of the
source is value-preserving, so the caps are carried as plain naturals. -/
def negotiate_reliability (ordered : Bool)
    (max_packet_lifetime max_retransmits : Nat) : ChannelType × Nat :=
  if max_packet_lifetime = 0 ∧ max_retransmits = 0 then
    ((if ordered then ChannelType.Reliable else ChannelType.ReliableUnordered), 0)
  else if max_retransmits ≠ 0 then
    ((if ordered then ChannelType.PartialReliableRexmit
      else ChannelType.PartialReliableRexmitUnordered), max_retransmits)
  else
    ((if ordered then ChannelType.PartialReliableTimed
      else ChannelType.PartialReliableTimedUnordered), max_packet_lifetime)

/-- `handle_open` (lines 229-260 of mod.rs): store the stream reference,
set the state to `Open`, take and invoke the on-open handler if present,
and spawn the read loop unless detach mode is configured. -/
def DataChannel.handle_open (c : DataChannel) (dc : DataStream) :
    DataChannel × List OpenEffect :=
  let c1 := { c with data_channel := some dc }
  let c2 := c1.set_ready_state DataChannelState.Open
  let (c3, evs) :=
    match c2.on_open_handler with
    | some f =>
        ({ c2 with on_open_handler := none },
         [OpenEffect.invoked_on_open f c2.ready_state])
    | none => (c2, [])
  if !c3.setting_engine_detach then
    (c3, evs ++ [OpenEffect.spawned_read_loop])
  else
    (c3, evs)

/-- Identifier-allocation step of `open` (lines 151-160 of mod.rs): when
the identifier is still zero, request one from the session (the error of
`generate_and_set_data_channel_id` propagates through the `?` operator)
and store it; split out of `openChan` so its outcome can be named in
proofs. -/
def DataChannel.open_gen_id (c : DataChannel) (s : Session) :
    Except Err DataChannel :=
  if c.id = 0 then
    match s.alloc_id with
    | some new_id => Except.ok { c with id := new_id }
    | none => Except.error Err.TransportError
  else
    Except.ok c

/-- `open` (lines 105-181 of mod.rs; `open` is a Lean keyword, hence the
name). Requires an association; stores the transport reference exactly once
and early-returns success on a duplicate call; computes the channel
type and reliability parameter; allocates the identifier when it is still
zero (propagating the allocation error); dials the stream (propagating the
dial error); replays the cached threshold and any queued low-watermark
callback onto the fresh stream; then runs `handle_open`. -/
def DataChannel.openChan (c : DataChannel) (s : Session) :
    Except Err Unit × DataChannel × List OpenEffect :=
  if s.has_association then
    if c.sctp_transport.isSome then
      (Except.ok (), c, [])
    else
      let c1 := { c with sctp_transport := some s }
      let ctrp :=
        negotiate_reliability c1.ordered c1.max_packet_lifetime c1.max_retransmits
      let cfg : Config :=
        { channel_type := ctrp.1
          priority := CHANNEL_PRIORITY_NORMAL
          reliability_parameter := ctrp.2
          label := c1.label
          protocol := c1.protocol
          negotiated := c1.negotiated }
      match c1.open_gen_id s with
      | Except.error e => (Except.error e, c1, [])
      | Except.ok c2 =>
          if s.dial_fails then
            (Except.error Err.TransportError, c2, [])
          else
            let dc0 : DataStream := {}
            let dc1 := { dc0 with
              buffered_amount_low_threshold := c2.buffered_amount_low_threshold }
            let c3 :=
              match c2.on_buffered_amount_low_slot with
              | some _ => { c2 with on_buffered_amount_low_slot := none }
              | none => c2
            let dc2 :=
              match c2.on_buffered_amount_low_slot with
              | some f => { dc1 with on_low := some f }
              | none => dc1
            let hr := c3.handle_open dc2
            (Except.ok (), hr.1, OpenEffect.dialed c2.id cfg :: hr.2)
  else
    (Except.error Err.ErrSCTPNotEstablished, c, [])

/-- `on_open` (lines 201-209 of mod.rs): when the channel is already `Open`
the callback runs immediately and is not stored; otherwise it is stored in
the single slot, replacing any previous occupant. -/
def DataChannel.on_open (c : DataChannel) (f : Nat) :
    DataChannel × List OpenEffect :=
  if c.ready_state = DataChannelState.Open then
    (c, [OpenEffect.invoked_on_open f c.ready_state])
  else
    ({ c with on_open_handler := some f }, [])

/-- `on_close` (lines 213-216 of mod.rs). -/
def DataChannel.on_close_reg (c : DataChannel) (f : Nat) : DataChannel :=
  { c with on_close_handler := some f }

/-- `on_message` (lines 224-227 of mod.rs). -/
def DataChannel.on_message_reg (c : DataChannel) (f : Nat) : DataChannel :=
  { c with on_message_handler := some f }

/-- `on_error` (lines 264-267 of mod.rs). -/
def DataChannel.on_error_reg (c : DataChannel) (f : Nat) : DataChannel :=
  { c with on_error_handler := some f }

/-- `on_buffered_amount_low` (lines 486-492 of mod.rs): the callback is
forwarded to the stream when one exists and is otherwise dropped; the
struct's slot is never written here (the source line is the comment
`TODO: self.onBufferedAmountLow = f`). -/
def DataChannel.on_buffered_amount_low_reg (c : DataChannel) (f : Nat) :
    DataChannel :=
  match c.data_channel with
  | some dc => { c with data_channel := some { dc with on_low := some f } }
  | none => c

/-- `write_data_channel` of the external stream: the model accepts the
bytes, logs the write and reports the byte count accepted. -/
def DataStream.write_data_channel (dc : DataStream) (data : List Nat)
    (is_string : Bool) : Nat × DataStream :=
  (data.length,
   { dc with
     writes := dc.writes ++ [(data, is_string)]
     buffered_amount := dc.buffered_amount + data.length })

/-- `ensure_open` (lines 338-344 of mod.rs). -/
def DataChannel.ensure_open (c : DataChannel) : Except Err Unit :=
  if c.ready_state ≠ DataChannelState.Open then
    Except.error Err.ErrClosedPipe
  else
    Except.ok ()

/-- `send` (lines 315-324 of mod.rs): state gate first, then write through
to the stream when one is attached. -/
def DataChannel.send (c : DataChannel) (data : List Nat) :
    Except Err Nat × DataChannel :=
  match c.ensure_open with
  | Except.error e => (Except.error e, c)
  | Except.ok _ =>
      match c.data_channel with
      | some dc =>
          let w := dc.write_data_channel data false
          (Except.ok w.1, { c with data_channel := some w.2 })
      | none => (Except.error Err.ErrClosedPipe, c)

/-- `send_text` (lines 327-336 of mod.rs): the text is carried as its byte
list, written with the text flag set. -/
def DataChannel.send_text (c : DataChannel) (s_bytes : List Nat) :
    Except Err Nat × DataChannel :=
  match c.ensure_open with
  | Except.error e => (Except.error e, c)
  | Except.ok _ =>
      match c.data_channel with
      | some dc =>
          let w := dc.write_data_channel s_bytes true
          (Except.ok w.1, { c with data_channel := some w.2 })
      | none => (Except.error Err.ErrClosedPipe, c)

/-- `close` of the external stream (always succeeds in the model). -/
def DataStream.close_stream (dc : DataStream) : DataStream :=
  { dc with close_called := true }

/-- `close` (lines 371-384 of mod.rs): a no-op when already `Closed`,
otherwise move to `Closing` and ask the stream (when attached) to close. -/
def DataChannel.close (c : DataChannel) : Except Err Unit × DataChannel :=
  if c.ready_state = DataChannelState.Closed then
    (Except.ok (), c)
  else
    let c1 := c.set_ready_state DataChannelState.Closing
    match c1.data_channel with
    | some dc => (Except.ok (), { c1 with data_channel := some dc.close_stream })
    | none => (Except.ok (), c1)

/-- `detach` (lines 354-367 of mod.rs): gate on the setting-engine flag,
then on stream existence; on success record `detach_called` and hand out
the stream reference. -/
def DataChannel.detach (c : DataChannel) :
    Except Err DataStream × DataChannel :=
  if !c.setting_engine_detach then
    (Except.error Err.ErrDetachNotEnabled, c)
  else
    match c.data_channel with
    | some dc => (Except.ok dc, { c with detach_called := true })
    | none => (Except.error Err.ErrDetachBeforeOpened, c)

/-- `buffered_amount` (lines 448-455 of mod.rs). -/
def DataChannel.buffered_amount_get (c : DataChannel) : Nat :=
  match c.data_channel with
  | some dc => dc.buffered_amount
  | none => 0

/-- `buffered_amount_low_threshold` (lines 463-470 of mod.rs): live from
the stream when attached, from the cached value otherwise. -/
def DataChannel.buffered_amount_low_threshold_get (c : DataChannel) : Nat :=
  match c.data_channel with
  | some dc => dc.buffered_amount_low_threshold
  | none => c.buffered_amount_low_threshold

/-- `set_buffered_amount_low_threshold` (lines 474-481 of mod.rs): always
update the cache, and push to the stream when one is attached. -/
def DataChannel.set_buffered_amount_low_threshold (c : DataChannel)
    (th : Nat) : DataChannel :=
  let c1 := { c with buffered_amount_low_threshold := th }
  match c1.data_channel with
  | some dc =>
      { c1 with
        data_channel := some { dc with buffered_amount_low_threshold := th } }
  | none => c1

/-- Events of the read loop's failure path, each callback invocation
recording the value of the shared `ready_state` cell at the moment the
callback starts. -/
inductive RLEvent where
  | on_error_called (f : Nat) (observed : DataChannelState)
  | on_close_called (f : Nat) (observed : DataChannelState)
  | loop_exit
deriving DecidableEq

/-- Failure arm of `read_loop` (lines 281-298 of mod.rs): store `Closed`
into the shared state first, invoke the on-error handler unless the
failure is the expected stream-already-closed condition, invoke the
on-close handler, and leave the loop. Returns the final state and the
event trace. -/
def read_loop_on_failure (_prior_state : DataChannelState) (err : StreamErr)
    (on_error_handler on_close_handler : Option Nat) :
    DataChannelState × List RLEvent :=
  let ready_state := DataChannelState.Closed
  let evs : List RLEvent := []
  let evs :=
    if !err.is_stream_closed then
      match on_error_handler with
      | some f => evs ++ [RLEvent.on_error_called f ready_state]
      | none => evs
    else
      evs
  let evs :=
    match on_close_handler with
    | some f => evs ++ [RLEvent.on_close_called f ready_state]
    | none => evs
  (ready_state, evs ++ [RLEvent.loop_exit])

/-- Whether a read-loop event is an on-error invocation. -/
def is_error_event : RLEvent → Bool
  | RLEvent.on_error_called _ _ => true
  | _ => false

/-- Whether a read-loop event is an on-close invocation. -/
def is_close_event : RLEvent → Bool
  | RLEvent.on_close_called _ _ => true
  | _ => false

/-- The state a read-loop callback observes on entry (`none` for the loop
exit marker, which is not a callback). -/
def event_observed : RLEvent → Option DataChannelState
  | RLEvent.on_error_called _ s => some s
  | RLEvent.on_close_called _ s => some s
  | RLEvent.loop_exit => none

/-- Whether an open effect is an on-open invocation. -/
def is_on_open_invoke : OpenEffect → Bool
  | OpenEffect.invoked_on_open _ _ => true
  | _ => false

/-- Whether an open effect is a stream dial. -/
def is_dial_effect : OpenEffect → Bool
  | OpenEffect.dialed _ _ => true
  | _ => false

/-- The channel operations, for stating how the lifecycle state can move.
`op_handle_open` is the completion phase of an in-flight `open` (the
source's `handle_open`, which may interleave with other calls because
`open` holds no lock across its whole body), carrying the stream the dial
produced; `op_read_fail` is the read loop's failure arm acting on the
shared state. -/
inductive ChanOp where
  | op_close
  | op_open (s : Session)
  | op_handle_open (dc : DataStream)
  | op_read_fail (err : StreamErr)
  | op_send (data : List Nat)
  | op_send_text (data : List Nat)
  | op_set_threshold (n : Nat)
  | op_on_open (f : Nat)
  | op_on_close (f : Nat)
  | op_on_message (f : Nat)
  | op_on_error (f : Nat)
  | op_on_buffered_amount_low (f : Nat)
  | op_detach
deriving DecidableEq

/-- Effect of one channel operation on the channel (results and event
traces discarded). The read loop's failure arm only stores `Closed` into
the shared state; the handler slots are borrowed, not taken, so the
channel fields are otherwise unchanged. -/
def apply_op (c : DataChannel) : ChanOp → DataChannel
  | ChanOp.op_close => (c.close).2
  | ChanOp.op_open s => (c.openChan s).2.1
  | ChanOp.op_handle_open dc => (c.handle_open dc).1
  | ChanOp.op_read_fail _ => { c with ready_state := DataChannelState.Closed }
  | ChanOp.op_send data => (c.send data).2
  | ChanOp.op_send_text data => (c.send_text data).2
  | ChanOp.op_set_threshold n => c.set_buffered_amount_low_threshold n
  | ChanOp.op_on_open f => (c.on_open f).1
  | ChanOp.op_on_close f => c.on_close_reg f
  | ChanOp.op_on_message f => c.on_message_reg f
  | ChanOp.op_on_error f => c.on_error_reg f
  | ChanOp.op_on_buffered_amount_low f => c.on_buffered_amount_low_reg f
  | ChanOp.op_detach => (c.detach).2

/-- Whether an operation is an open-completion step (a full `open` call or
the `handle_open` completion phase), the steps that set the state to
`Open`. -/
def is_open_completion : ChanOp → Bool
  | ChanOp.op_open _ => true
  | ChanOp.op_handle_open _ => true
  | _ => false

/-- Position of a state along the forward order
Connecting, Open, Closing, Closed. -/
def state_rank : DataChannelState → Nat
  | DataChannelState.Connecting => 0
  | DataChannelState.Open => 1
  | DataChannelState.Closing => 2
  | DataChannelState.Closed => 3

/-- Concrete channel parameters used by the evaluation fixtures below:
an ordered, fully reliable, non-negotiated channel with no pre-assigned
identifier. -/
def params0 : DataChannelParameters :=
  { label := "data"
    protocol := "proto"
    ordered := true
    max_packet_lifetime := 0
    max_retransmits := 0
    negotiated := false
    id := 0 }

/-- A session with an active association, a working identifier allocator
and a working dial. -/
def session0 : Session :=
  { has_association := true, alloc_id := some 5 }

/-- A session whose stream dial fails. -/
def session_dial_fail : Session :=
  { has_association := true, alloc_id := some 5, dial_fails := true }

/-- A fresh channel in normal (non-detached) mode. -/
def chan0 : DataChannel := DataChannel.new params0 false 0

/-- The normal-mode channel after a successful `open`. -/
def chan0_open : DataChannel := (chan0.openChan session0).2.1

/-- A fresh channel with detach mode configured. -/
def chan_det : DataChannel := DataChannel.new params0 true 0

/-- The detach-mode channel after a successful `open`. -/
def chan_det_open : DataChannel := (chan_det.openChan session0).2.1

/-- After `handle_open` the lifecycle state is `Open`, whatever it was
before: the source sets it unconditionally (line 234 of mod.rs). -/
theorem handle_open_ready_state (c : DataChannel) (dc : DataStream) :
    (c.handle_open dc).1.ready_state = DataChannelState.Open := by
  unfold DataChannel.handle_open
  cases h : c.on_open_handler <;>
    simp [DataChannel.set_ready_state, h] <;>
    cases c.setting_engine_detach <;> simp

/-- A duplicate `open` call on a channel whose transport reference is set
returns success immediately, with the channel untouched and no effects
(lines 107-114 of mod.rs). -/
theorem openChan_already_set (c : DataChannel) (s : Session)
    (h1 : c.sctp_transport.isSome = true) (h2 : s.has_association = true) :
    c.openChan s = (Except.ok (), c, []) := by
  unfold DataChannel.openChan
  simp [h1, h2]

/-- Claim C1: for every combination of (ordered, max_packet_lifetime,
max_retransmits) with at most one cap nonzero, the reliability negotiation
inside `open` produces exactly the channel-type / reliability-parameter
pair of spec section 4.1: both caps zero gives parameter 0 and
Reliable / ReliableUnordered per `ordered`; a nonzero max_retransmits
gives parameter max_retransmits and PartialReliableRexmit(Unordered);
otherwise parameter max_packet_lifetime and PartialReliableTimed
(Unordered). The mapping is a total function with no error path. -/
theorem C1_reliability_negotiation (ordered : Bool) (mpl mr : Nat) :
    (mpl = 0 → mr = 0 →
      negotiate_reliability ordered mpl mr =
        ((if ordered then ChannelType.Reliable else ChannelType.ReliableUnordered), 0))
    ∧ (mr ≠ 0 →
      negotiate_reliability ordered mpl mr =
        ((if ordered then ChannelType.PartialReliableRexmit
          else ChannelType.PartialReliableRexmitUnordered), mr))
    ∧ (mpl ≠ 0 → mr = 0 →
      negotiate_reliability ordered mpl mr =
        ((if ordered then ChannelType.PartialReliableTimed
          else ChannelType.PartialReliableTimedUnordered), mpl)) := by
  refine ⟨fun h1 h2 => ?_, fun h2 => ?_, fun h1 h2 => ?_⟩
  · simp [negotiate_reliability, h1, h2]
  · simp [negotiate_reliability, h2]
  · simp [negotiate_reliability, h1, h2]

/-- Witness for C1 at the spec's own example: ordered = false,
max_retransmits = 3 gives PartialReliableRexmitUnordered with parameter 3. -/
theorem C1_reliability_negotiation_witness :
    negotiate_reliability false 0 3 =
      (ChannelType.PartialReliableRexmitUnordered, 3) :=
  (C1_reliability_negotiation false 0 3).2.1 (by decide)

/-- Claim C2: on every read failure the read loop first stores `Closed`
into the lifecycle state, invokes the on-error handler iff the failure is
not the stream-already-closed condition (and a handler is registered),
then invokes the on-close handler exactly once (if registered), then
exits the loop; every callback in the sequence observes the state
`Closed`. -/
theorem C2_read_loop_failure (st : DataChannelState) (err : StreamErr)
    (onErr onCl : Option Nat) :
    (read_loop_on_failure st err onErr onCl).1 = DataChannelState.Closed
    ∧ ((read_loop_on_failure st err onErr onCl).2.countP is_error_event
        = if err.is_stream_closed = false ∧ onErr.isSome = true then 1 else 0)
    ∧ ((read_loop_on_failure st err onErr onCl).2.countP is_close_event
        = if onCl.isSome = true then 1 else 0)
    ∧ (∀ e ∈ (read_loop_on_failure st err onErr onCl).2,
        ∀ s, event_observed e = some s → s = DataChannelState.Closed)
    ∧ (read_loop_on_failure st err onErr onCl).2.getLast? =
        some RLEvent.loop_exit
    ∧ (∃ A B, (read_loop_on_failure st err onErr onCl).2
          = A ++ B ++ [RLEvent.loop_exit]
        ∧ (∀ e ∈ A, is_error_event e = true)
        ∧ (∀ e ∈ B, is_close_event e = true)) := by
  obtain ⟨isc⟩ := err
  refine ⟨rfl, ?_, ?_, ?_, ?_, ?_⟩
  · cases isc <;> cases onErr <;> cases onCl <;>
      simp [read_loop_on_failure, is_error_event]
  · cases isc <;> cases onErr <;> cases onCl <;>
      simp [read_loop_on_failure, is_close_event]
  · cases isc <;> cases onErr <;> cases onCl <;>
      simp [read_loop_on_failure, event_observed]
  · cases isc <;> cases onErr <;> cases onCl <;> rfl
  · cases isc <;> cases onErr <;> cases onCl
    case mk.refine_5.false.none.none => exact ⟨[], [], rfl, by simp, by simp⟩
    case mk.refine_5.false.none.some g =>
      exact ⟨[], [RLEvent.on_close_called g DataChannelState.Closed], rfl,
        by simp, by simp [is_close_event]⟩
    case mk.refine_5.false.some.none f =>
      exact ⟨[RLEvent.on_error_called f DataChannelState.Closed], [], rfl,
        by simp [is_error_event], by simp⟩
    case mk.refine_5.false.some.some f g =>
      exact ⟨[RLEvent.on_error_called f DataChannelState.Closed],
        [RLEvent.on_close_called g DataChannelState.Closed], rfl,
        by simp [is_error_event], by simp [is_close_event]⟩
    case mk.refine_5.true.none.none => exact ⟨[], [], rfl, by simp, by simp⟩
    case mk.refine_5.true.none.some g =>
      exact ⟨[], [RLEvent.on_close_called g DataChannelState.Closed], rfl,
        by simp, by simp [is_close_event]⟩
    case mk.refine_5.true.some.none f => exact ⟨[], [], rfl, by simp, by simp⟩
    case mk.refine_5.true.some.some f g =>
      exact ⟨[], [RLEvent.on_close_called g DataChannelState.Closed], rfl,
        by simp, by simp [is_close_event]⟩

/-- Witness for C2: a failure that is not stream-already-closed, with both
handlers registered, leaves the state `Closed`. -/
theorem C2_read_loop_failure_witness :
    (read_loop_on_failure DataChannelState.Open ⟨false⟩ (some 1) (some 2)).1
      = DataChannelState.Closed :=
  (C2_read_loop_failure DataChannelState.Open ⟨false⟩ (some 1) (some 2)).1

/-- The state `close` leaves behind: unchanged when already `Closed`,
otherwise `Closing` (lines 371-377 of mod.rs). -/
theorem close_ready_state (c : DataChannel) :
    ((c.close).2).ready_state =
      if c.ready_state = DataChannelState.Closed then DataChannelState.Closed
      else DataChannelState.Closing := by
  unfold DataChannel.close
  split
  case isTrue h => simp [h]
  case isFalse h =>
    simp only [DataChannel.set_ready_state]
    cases hdc : c.data_channel <;> simp [hdc, h]

/-- Claim C3: `send` and `send_text` fail with the closed-pipe error and
write nothing whenever the lifecycle state is not `Open`; when the state
is `Open` and a stream is attached they write through to the stream and
return the number of bytes accepted. In particular a send on a freshly
constructed channel (before `open` completes) fails with the closed-pipe
error, and so does a send after `close` has run. -/
theorem C3_send_state_gate (c : DataChannel) (data txt : List Nat)
    (p : DataChannelParameters) (det : Bool) (now : Nat) :
    (c.ready_state ≠ DataChannelState.Open →
      c.send data = (Except.error Err.ErrClosedPipe, c)
      ∧ c.send_text txt = (Except.error Err.ErrClosedPipe, c))
    ∧ (∀ dc, c.ready_state = DataChannelState.Open →
        c.data_channel = some dc →
      c.send data = (Except.ok data.length,
        { c with data_channel := some (dc.write_data_channel data false).2 })
      ∧ c.send_text txt = (Except.ok txt.length,
        { c with data_channel := some (dc.write_data_channel txt true).2 }))
    ∧ ((DataChannel.new p det now).send data).1 = Except.error Err.ErrClosedPipe
    ∧ (((c.close).2).send data).1 = Except.error Err.ErrClosedPipe := by
  refine ⟨fun h => ?_, fun dc h1 h2 => ?_, ?_, ?_⟩
  · constructor <;>
      simp [DataChannel.send, DataChannel.send_text, DataChannel.ensure_open, h]
  · constructor <;>
      simp [DataChannel.send, DataChannel.send_text, DataChannel.ensure_open,
        h1, h2, DataStream.write_data_channel]
  · simp [DataChannel.send, DataChannel.ensure_open, DataChannel.new]
  · have hst : ((c.close).2).ready_state ≠ DataChannelState.Open := by
      rw [close_ready_state]
      split <;> simp
    simp [DataChannel.send, DataChannel.ensure_open, hst]

/-- Witness for C3: the opened fixture channel accepts a two-byte send and
reports 2 bytes accepted. -/
theorem C3_send_state_gate_witness :
    chan0_open.send [1, 2] = (Except.ok 2,
      { chan0_open with
          data_channel := some ((({} : DataStream).write_data_channel [1, 2] false)).2 }) :=
  ((C3_send_state_gate chan0_open [1, 2] [] params0 false 0).2.1
    {} (by decide) (by decide)).1

/-- A successful identifier-allocation step only (possibly) writes the
identifier; every other field survives. -/
theorem open_gen_id_ok (c c' : DataChannel) (s : Session)
    (h : c.open_gen_id s = Except.ok c') : ∃ x, c' = { c with id := x } := by
  unfold DataChannel.open_gen_id at h
  by_cases h0 : c.id = 0
  · simp only [h0, if_true] at h
    cases ha : s.alloc_id with
    | none => rw [ha] at h; exact absurd h (by simp)
    | some k =>
        rw [ha] at h
        simp only [Except.ok.injEq] at h
        exact ⟨k, h.symm⟩
  · simp only [h0, if_false] at h
    simp only [Except.ok.injEq] at h
    exact ⟨c.id, by rw [← h]⟩

/-- The state `openChan` leaves behind is either the input state (the
no-association, duplicate-call, allocation-failure and dial-failure paths)
or `Open` (successful completion through `handle_open`). -/
theorem openChan_ready_state (c : DataChannel) (s : Session) :
    (c.openChan s).2.1.ready_state = c.ready_state
    ∨ (c.openChan s).2.1.ready_state = DataChannelState.Open := by
  unfold DataChannel.openChan
  split
  · split
    · left; rfl
    · simp only []
      cases hid : ({ c with sctp_transport := some s } : DataChannel).open_gen_id s with
      | error e => left; rfl
      | ok c2 =>
          obtain ⟨x, hx⟩ := open_gen_id_ok _ _ _ hid
          simp only []
          split
          · left; simp [hx]
          · right; exact handle_open_ready_state _ _
  · left; rfl

/-- `send` never changes the lifecycle state. -/
theorem send_ready_state (c : DataChannel) (data : List Nat) :
    ((c.send data).2).ready_state = c.ready_state := by
  unfold DataChannel.send
  cases h : c.ensure_open
  · rfl
  · simp only []
    cases hdc : c.data_channel <;> rfl

/-- `send_text` never changes the lifecycle state. -/
theorem send_text_ready_state (c : DataChannel) (txt : List Nat) :
    ((c.send_text txt).2).ready_state = c.ready_state := by
  unfold DataChannel.send_text
  cases h : c.ensure_open
  · rfl
  · simp only []
    cases hdc : c.data_channel <;> rfl

/-- `set_buffered_amount_low_threshold` never changes the lifecycle
state. -/
theorem set_threshold_ready_state (c : DataChannel) (n : Nat) :
    (c.set_buffered_amount_low_threshold n).ready_state = c.ready_state := by
  unfold DataChannel.set_buffered_amount_low_threshold
  simp only []
  cases hdc : ({ c with buffered_amount_low_threshold := n } : DataChannel).data_channel <;> rfl

/-- `detach` never changes the lifecycle state. -/
theorem detach_ready_state (c : DataChannel) :
    ((c.detach).2).ready_state = c.ready_state := by
  unfold DataChannel.detach
  split
  · rfl
  · cases hdc : c.data_channel <;> rfl

/-- `on_open` registration never changes the lifecycle state. -/
theorem on_open_ready_state (c : DataChannel) (f : Nat) :
    ((c.on_open f).1).ready_state = c.ready_state := by
  unfold DataChannel.on_open
  split <;> rfl

/-- Counterexample to claim C4 as stated: the two-operation sequence
`close()` then `open(session)` on a fresh channel moves the lifecycle
state from `Closing` back to `Open` — a backward move that is not a
transport read failure — because `handle_open` (line 234 of mod.rs) sets
`Open` unconditionally. -/
theorem C4_counterexample :
    (apply_op chan0 ChanOp.op_close).ready_state = DataChannelState.Closing
    ∧ (apply_op (apply_op chan0 ChanOp.op_close)
        (ChanOp.op_open session0)).ready_state = DataChannelState.Open
    ∧ state_rank (apply_op (apply_op chan0 ChanOp.op_close)
          (ChanOp.op_open session0)).ready_state
        < state_rank (apply_op chan0 ChanOp.op_close).ready_state := by
  decide

/-- Claim C4 (amended): every channel operation either keeps the lifecycle
state's rank along Connecting → Open → Closing → Closed or increases it (a
transport read failure jumps straight to `Closed`, which is forward), with
the single exception of an open-completion step (a full `open` call or the
`handle_open` phase of an in-flight open), which sets the state to `Open`
unconditionally — so a `close` that runs before open completion is
overridden, moving `Closing` back to `Open`. -/
theorem C4_state_forward_except_open_completion (c : DataChannel)
    (op : ChanOp) :
    state_rank c.ready_state ≤ state_rank ((apply_op c op).ready_state)
    ∨ (is_open_completion op = true
        ∧ (apply_op c op).ready_state = DataChannelState.Open) := by
  cases op with
  | op_close =>
      left
      have h : (apply_op c ChanOp.op_close).ready_state =
          ((c.close).2).ready_state := rfl
      rw [h, close_ready_state]
      cases hc : c.ready_state <;> simp [hc, state_rank]
  | op_open s =>
      rcases openChan_ready_state c s with h | h
      · left
        have he : (apply_op c (ChanOp.op_open s)).ready_state =
            ((c.openChan s).2.1).ready_state := rfl
        rw [he, h]
      · right; exact ⟨rfl, h⟩
  | op_handle_open dc => right; exact ⟨rfl, handle_open_ready_state c dc⟩
  | op_read_fail err =>
      left
      have h : (apply_op c (ChanOp.op_read_fail err)).ready_state =
          DataChannelState.Closed := rfl
      rw [h]
      cases hc : c.ready_state <;> simp [state_rank]
  | op_send data => left; rw [show (apply_op c (ChanOp.op_send data)).ready_state = ((c.send data).2).ready_state from rfl, send_ready_state]
  | op_send_text data => left; rw [show (apply_op c (ChanOp.op_send_text data)).ready_state = ((c.send_text data).2).ready_state from rfl, send_text_ready_state]
  | op_set_threshold n => left; rw [show (apply_op c (ChanOp.op_set_threshold n)).ready_state = (c.set_buffered_amount_low_threshold n).ready_state from rfl, set_threshold_ready_state]
  | op_on_open f => left; rw [show (apply_op c (ChanOp.op_on_open f)).ready_state = ((c.on_open f).1).ready_state from rfl, on_open_ready_state]
  | op_on_close f => left; exact le_refl _
  | op_on_message f => left; exact le_refl _
  | op_on_error f => left; exact le_refl _
  | op_on_buffered_amount_low f =>
      left
      have h : (apply_op c (ChanOp.op_on_buffered_amount_low f)).ready_state =
          c.ready_state := by
        unfold apply_op DataChannel.on_buffered_amount_low_reg
        cases hdc : c.data_channel <;> rfl
      rw [h]
  | op_detach => left; rw [show (apply_op c ChanOp.op_detach).ready_state = ((c.detach).2).ready_state from rfl, detach_ready_state]

/-- Claim C5: `open` is idempotent — on a channel whose transport
reference is already set, a call with the same session (whose association
is still up) returns success with no side effects: the channel (stream
reference, identifier, state) is unchanged and no effect — in particular
no dial — is performed. -/
theorem C5_open_idempotent (c : DataChannel) (s : Session)
    (h1 : c.sctp_transport.isSome = true) (h2 : s.has_association = true) :
    c.openChan s = (Except.ok (), c, []) :=
  openChan_already_set c s h1 h2

/-- Witness for C5: a second `open` of the opened fixture channel with the
same session returns success and changes nothing. -/
theorem C5_open_idempotent_witness :
    chan0_open.openChan session0 = (Except.ok (), chan0_open, []) :=
  C5_open_idempotent chan0_open session0 (by decide) (by decide)

/-- Claim C6 is a code bug, demonstrated here: registering a low-watermark
callback before `open` leaves the channel completely unchanged (the
callback is silently dropped: `on_buffered_amount_low`, lines 486-492 of
mod.rs, only forwards to an already-attached stream and never writes the
struct's slot — the missing write is the source's own
`TODO: self.onBufferedAmountLow = f` comment), and after `open` the
dialed stream carries no low-watermark callback, contrary to the replay
the spec promises (and which `open`, lines 168-173, is written to
perform from the never-populated slot). -/
theorem C6_pre_open_low_watermark_dropped :
    chan0.on_buffered_amount_low_reg 7 = chan0
    ∧ ((chan0.on_buffered_amount_low_reg 7).openChan
          session0).2.1.data_channel.map (fun dc => dc.on_low)
        = some none := by
  decide

/-- Claim C7: registering an on-open handler while the channel is already
`Open` invokes it immediately, within the registration call, exactly once,
and does not store it (the channel is unchanged); registering it earlier
stores it in the slot and invokes nothing; open-completion (`handle_open`)
takes the stored handler and invokes it exactly once, clearing the slot,
and invokes nothing when the slot is empty. -/
theorem C7_on_open_registration (c : DataChannel) (f : Nat) :
    (c.ready_state = DataChannelState.Open →
      c.on_open f = (c, [OpenEffect.invoked_on_open f DataChannelState.Open]))
    ∧ (c.ready_state ≠ DataChannelState.Open →
      c.on_open f = ({ c with on_open_handler := some f }, []))
    ∧ (∀ dc, c.on_open_handler = some f →
      (c.handle_open dc).1.on_open_handler = none
      ∧ (c.handle_open dc).2.countP is_on_open_invoke = 1)
    ∧ (∀ dc, c.on_open_handler = none →
      (c.handle_open dc).2.countP is_on_open_invoke = 0) := by
  refine ⟨fun h => ?_, fun h => ?_, fun dc h => ?_, fun dc h => ?_⟩
  · simp [DataChannel.on_open, h]
  · simp [DataChannel.on_open, h]
  · unfold DataChannel.handle_open
    simp only [DataChannel.set_ready_state, h]
    constructor
    · split <;> rfl
    · split <;> simp [is_on_open_invoke]
  · unfold DataChannel.handle_open
    simp only [DataChannel.set_ready_state, h]
    split <;> simp [is_on_open_invoke]

/-- Witness for C7: registering on the already-open fixture channel fires
the callback immediately without storing it. -/
theorem C7_on_open_registration_witness :
    chan0_open.on_open 9 =
      (chan0_open, [OpenEffect.invoked_on_open 9 DataChannelState.Open]) :=
  (C7_on_open_registration chan0_open 9).1 (by decide)

/-- `handle_open` stores exactly the stream it is given. -/
theorem handle_open_data_channel (c : DataChannel) (dc : DataStream) :
    (c.handle_open dc).1.data_channel = some dc := by
  unfold DataChannel.handle_open
  cases h : c.on_open_handler <;>
    simp [DataChannel.set_ready_state, h] <;>
    cases c.setting_engine_detach <;> simp

/-- With detach mode configured, `handle_open` never spawns the read
loop. -/
theorem handle_open_no_spawn (c : DataChannel) (dc : DataStream)
    (h : c.setting_engine_detach = true) :
    OpenEffect.spawned_read_loop ∉ (c.handle_open dc).2 := by
  unfold DataChannel.handle_open
  cases hh : c.on_open_handler <;>
    simp [DataChannel.set_ready_state, hh, h]

/-- The identifier-allocation step succeeds whenever the identifier is
already set or the session's allocator works. -/
theorem open_gen_id_some (c : DataChannel) (s : Session)
    (hid : c.id = 0 → s.alloc_id.isSome = true) :
    ∃ c2, c.open_gen_id s = Except.ok c2 := by
  unfold DataChannel.open_gen_id
  by_cases h0 : c.id = 0
  · cases ha : s.alloc_id with
    | none => rw [ha] at hid; exact absurd (hid h0) (by simp)
    | some k => exact ⟨{ c with id := k }, by simp [h0, ha]⟩
  · exact ⟨c, by simp [h0]⟩

/-- On a successful first `open`, the stored stream is the fresh dial
result carrying the cached threshold and the callback taken from the
struct's low-watermark slot. -/
theorem openChan_data_channel (c : DataChannel) (s : Session)
    (hns : c.sctp_transport = none)
    (ha : s.has_association = true)
    (hd : s.dial_fails = false)
    (hid : c.id = 0 → s.alloc_id.isSome = true) :
    (c.openChan s).2.1.data_channel =
      some { buffered_amount_low_threshold := c.buffered_amount_low_threshold
             on_low := c.on_buffered_amount_low_slot
             buffered_amount := 0
             writes := []
             close_called := false } := by
  unfold DataChannel.openChan
  rw [if_pos ha, if_neg (by simp [hns])]
  simp only []
  obtain ⟨c2, hc2⟩ :=
    open_gen_id_some ({ c with sctp_transport := some s }) s hid
  obtain ⟨x, hx⟩ := open_gen_id_ok _ _ _ hc2
  rw [hc2]
  simp only [hd, Bool.false_eq_true, if_false]
  rw [handle_open_data_channel]
  subst hx
  cases hsl : c.on_buffered_amount_low_slot <;> simp [hsl]

/-- With detach mode configured, no `open` path ever spawns the read
loop. -/
theorem openChan_no_spawn (c : DataChannel) (s : Session)
    (h : c.setting_engine_detach = true) :
    OpenEffect.spawned_read_loop ∉ (c.openChan s).2.2 := by
  unfold DataChannel.openChan
  split
  · split
    · simp
    · simp only []
      cases hc2 : ({ c with sctp_transport := some s } : DataChannel).open_gen_id s with
      | error e => simp
      | ok c2 =>
          obtain ⟨x, hx⟩ := open_gen_id_ok _ _ _ hc2
          simp only []
          split
          · simp
          · intro hmem
            simp only [List.mem_cons] at hmem
            rcases hmem with hmem | hmem
            · exact absurd hmem (by simp)
            · have hset : (match c2.on_buffered_amount_low_slot with
                  | some _ => { c2 with on_buffered_amount_low_slot := none }
                  | none => c2).setting_engine_detach = true := by
                cases hsl : c2.on_buffered_amount_low_slot <;> simp [hsl, hx, h]
              exact handle_open_no_spawn _ _ hset hmem
  · simp

/-- On a channel with no stream attached, setting the threshold only
writes the cache. -/
theorem set_threshold_shape (c : DataChannel) (n : Nat)
    (h : c.data_channel = none) :
    c.set_buffered_amount_low_threshold n =
      { c with buffered_amount_low_threshold := n } := by
  unfold DataChannel.set_buffered_amount_low_threshold
  simp [h]

/-- Claim C8: `set_buffered_amount_low_threshold n` always updates the
cached threshold and, when a stream is attached, also pushes `n` to the
stream immediately; a threshold set before `open` is applied to the
stream at open time, and the getter returns it both before open (from the
cache) and after open (from the stream). -/
theorem C8_buffered_amount_low_threshold (c : DataChannel) (n : Nat) :
    (c.set_buffered_amount_low_threshold n).buffered_amount_low_threshold = n
    ∧ (∀ dc, c.data_channel = some dc →
        (c.set_buffered_amount_low_threshold n).data_channel =
          some { dc with buffered_amount_low_threshold := n })
    ∧ (c.data_channel = none →
        (c.set_buffered_amount_low_threshold n).data_channel = none)
    ∧ (∀ s, c.data_channel = none → c.sctp_transport = none →
        s.has_association = true → s.dial_fails = false →
        (c.id = 0 → s.alloc_id.isSome = true) →
        (c.set_buffered_amount_low_threshold n).buffered_amount_low_threshold_get = n
        ∧ ((c.set_buffered_amount_low_threshold n).openChan
            s).2.1.buffered_amount_low_threshold_get = n
        ∧ (∃ dc, ((c.set_buffered_amount_low_threshold n).openChan
              s).2.1.data_channel = some dc
            ∧ dc.buffered_amount_low_threshold = n)) := by
  refine ⟨?_, fun dc h => ?_, fun h => ?_, fun s h1 h2 h3 h4 h5 => ?_⟩
  · unfold DataChannel.set_buffered_amount_low_threshold
    cases hdc : c.data_channel <;> simp [hdc]
  · unfold DataChannel.set_buffered_amount_low_threshold
    simp [h]
  · unfold DataChannel.set_buffered_amount_low_threshold
    simp [h]
  · rw [set_threshold_shape c n h1]
    have hdc := openChan_data_channel
      ({ c with buffered_amount_low_threshold := n }) s (by simp [h2]) h3 h4
      (by simpa using h5)
    refine ⟨?_, ?_, ⟨_, hdc, by simp⟩⟩
    · unfold DataChannel.buffered_amount_low_threshold_get
      simp [h1]
    · unfold DataChannel.buffered_amount_low_threshold_get
      rw [hdc]

/-- Witness for C8 at the spec's own example: threshold 500 set before
open is visible through the getter both before and after open. -/
theorem C8_buffered_amount_low_threshold_witness :
    (chan0.set_buffered_amount_low_threshold 500).buffered_amount_low_threshold_get = 500
    ∧ ((chan0.set_buffered_amount_low_threshold 500).openChan
        session0).2.1.buffered_amount_low_threshold_get = 500 :=
  ⟨((C8_buffered_amount_low_threshold chan0 500).2.2.2 session0 rfl rfl rfl rfl
      (fun _ => rfl)).1,
   ((C8_buffered_amount_low_threshold chan0 500).2.2.2 session0 rfl rfl rfl rfl
      (fun _ => rfl)).2.1⟩

/-- Counterexample to claim C9 as stated: `detach` does not succeed
"exactly once" — on the opened detach-mode fixture channel a second
`detach` call succeeds as well (the source has no once-only guard; it
re-reads the stream slot and returns it again). -/
theorem C9_detach_twice :
    ((chan_det_open.detach).1 = Except.ok ({} : DataStream))
    ∧ (((chan_det_open.detach).2.detach).1 = Except.ok ({} : DataStream)) := by
  decide

/-- Claim C9 (amended): `detach` fails with the detach-not-enabled error
whenever detach mode is not configured; with detach mode configured but no
stream attached it fails with the detach-before-opened error; once a
stream is attached it succeeds — on that and on any repeated call —
setting `detach_called` and returning the stream handle; and in detach
mode no `open` path ever spawns the read loop (the sole deliverer of
on-message events), so no on-message event is delivered afterward. -/
theorem C9_detach_behavior (c : DataChannel) :
    (c.setting_engine_detach = false →
      c.detach = (Except.error Err.ErrDetachNotEnabled, c))
    ∧ (c.setting_engine_detach = true → c.data_channel = none →
      c.detach = (Except.error Err.ErrDetachBeforeOpened, c))
    ∧ (∀ dc, c.setting_engine_detach = true → c.data_channel = some dc →
      c.detach = (Except.ok dc, { c with detach_called := true })
      ∧ ({ c with detach_called := true } : DataChannel).detach
          = (Except.ok dc, { c with detach_called := true }))
    ∧ (c.setting_engine_detach = true →
      ∀ s, OpenEffect.spawned_read_loop ∉ (c.openChan s).2.2) := by
  refine ⟨fun h => ?_, fun h1 h2 => ?_, fun dc h1 h2 => ?_,
    fun h s => openChan_no_spawn c s h⟩
  · simp [DataChannel.detach, h]
  · simp [DataChannel.detach, h1, h2]
  · constructor <;> simp [DataChannel.detach, h1, h2]

/-- Witness for C9: on the opened detach-mode fixture channel, `detach`
returns the stream and records the call. -/
theorem C9_detach_behavior_witness :
    chan_det_open.detach =
      (Except.ok ({} : DataStream),
        { chan_det_open with detach_called := true }) :=
  ((C9_detach_behavior chan_det_open).2.2.1 {} (by decide) (by decide)).1

/-- Identifier allocation when the identifier is still zero and the
allocator returns `k`. -/
theorem open_gen_id_zero (c : DataChannel) (s : Session) (k : Nat)
    (h0 : c.id = 0) (ha : s.alloc_id = some k) :
    c.open_gen_id s = Except.ok { c with id := k } := by
  unfold DataChannel.open_gen_id
  simp [h0, ha]

/-- Identifier allocation when the identifier is already set. -/
theorem open_gen_id_nonzero (c : DataChannel) (s : Session)
    (h0 : c.id ≠ 0) : c.open_gen_id s = Except.ok c := by
  unfold DataChannel.open_gen_id
  simp [h0]

/-- Outcome of `open` when the dial fails: the transport reference is
already stored (and the identifier already written when it was
allocated), and the error is returned. -/
theorem openChan_dial_fail (c : DataChannel) (s : Session)
    (hns : c.sctp_transport = none) (ha : s.has_association = true)
    (hd : s.dial_fails = true) :
    (c.id = 0 → ∀ k, s.alloc_id = some k →
      c.openChan s = (Except.error Err.TransportError,
        { c with sctp_transport := some s, id := k }, []))
    ∧ (c.id ≠ 0 →
      c.openChan s = (Except.error Err.TransportError,
        { c with sctp_transport := some s }, [])) := by
  constructor
  · intro h0 k hk
    unfold DataChannel.openChan
    rw [if_pos ha, if_neg (by simp [hns])]
    simp only []
    rw [open_gen_id_zero ({ c with sctp_transport := some s }) s k h0 hk]
    simp [hd]
  · intro h0
    unfold DataChannel.openChan
    rw [if_pos ha, if_neg (by simp [hns])]
    simp only []
    rw [open_gen_id_nonzero ({ c with sctp_transport := some s }) s h0]
    simp [hd]

/-- Outcome of `open` when identifier allocation fails: the transport
reference is already stored and the allocator's error is returned. -/
theorem openChan_alloc_fail (c : DataChannel) (s : Session)
    (hns : c.sctp_transport = none) (ha : s.has_association = true)
    (h0 : c.id = 0) (hal : s.alloc_id = none) :
    c.openChan s = (Except.error Err.TransportError,
      { c with sctp_transport := some s }, []) := by
  unfold DataChannel.openChan
  rw [if_pos ha, if_neg (by simp [hns])]
  have hgen : ({ c with sctp_transport := some s } : DataChannel).open_gen_id s
      = Except.error Err.TransportError := by
    unfold DataChannel.open_gen_id
    simp [h0, hal]
  simp only []
  rw [hgen]

/-- Claim C10 (implicit): `open` is not atomic on failure. If the session
has an association but the dial fails, `open` returns the error with the
transport reference already stored (and the identifier already written
when it was allocated); every later `open` then returns success
immediately through the idempotence guard without dialing, leaving the
channel in `Connecting` with no stream, so `send` fails with the
closed-pipe error from then on. The identifier-allocation failure behaves
the same way. -/
theorem C10_open_not_atomic (c : DataChannel) (s s2 : Session)
    (data : List Nat)
    (hns : c.sctp_transport = none)
    (hst : c.ready_state = DataChannelState.Connecting)
    (hdc : c.data_channel = none)
    (ha : s.has_association = true)
    (hd : s.dial_fails = true)
    (hid : c.id = 0 → s.alloc_id.isSome = true)
    (ha2 : s2.has_association = true) :
    (c.openChan s).1 = Except.error Err.TransportError
    ∧ (c.openChan s).2.1.sctp_transport = some s
    ∧ (c.openChan s).2.1.ready_state = DataChannelState.Connecting
    ∧ (c.openChan s).2.1.data_channel = none
    ∧ (∀ k, c.id = 0 → s.alloc_id = some k → (c.openChan s).2.1.id = k)
    ∧ ((c.openChan s).2.1.openChan s2
        = (Except.ok (), (c.openChan s).2.1, []))
    ∧ ((c.openChan s).2.1.send data).1 = Except.error Err.ErrClosedPipe
    ∧ (c.id = 0 → ∀ s3, s3.has_association = true → s3.alloc_id = none →
        c.openChan s3 = (Except.error Err.TransportError,
          { c with sctp_transport := some s3 }, [])) := by
  have hshape : ∃ x, c.openChan s = (Except.error Err.TransportError,
      { c with sctp_transport := some s, id := x }, []) := by
    by_cases h0 : c.id = 0
    · cases halloc : s.alloc_id with
      | none => rw [halloc] at hid; exact absurd (hid h0) (by simp)
      | some k =>
          exact ⟨k, (openChan_dial_fail c s hns ha hd).1 h0 k halloc⟩
    · exact ⟨c.id, (openChan_dial_fail c s hns ha hd).2 h0⟩
  obtain ⟨x, hx⟩ := hshape
  refine ⟨by rw [hx], by rw [hx], by rw [hx]; exact hst, by rw [hx]; exact hdc,
    ?_, ?_, ?_, ?_⟩
  · intro k h0 halloc
    have hx2 := (openChan_dial_fail c s hns ha hd).1 h0 k halloc
    rw [hx2]
  · rw [hx]
    exact openChan_already_set _ s2 (by rfl) ha2
  · rw [hx]
    have hopen : ({ c with sctp_transport := some s, id := x } :
        DataChannel).ready_state ≠ DataChannelState.Open := by
      simp [hst]
    simp [DataChannel.send, DataChannel.ensure_open, hopen]
  · intro h0 s3 h3a h3n
    exact openChan_alloc_fail c s3 hns h3a h0 h3n

/-- Witness for C10: a dial failure on the fresh fixture channel leaves
the transport stored, a later `open` with a healthy session is a no-op
success, and `send` still fails with the closed-pipe error. -/
theorem C10_open_not_atomic_witness :
    ((chan0.openChan session_dial_fail).1 = Except.error Err.TransportError)
    ∧ ((chan0.openChan session_dial_fail).2.1.openChan session0
        = (Except.ok (), (chan0.openChan session_dial_fail).2.1, []))
    ∧ (((chan0.openChan session_dial_fail).2.1.send [9]).1
        = Except.error Err.ErrClosedPipe) :=
  ⟨(C10_open_not_atomic chan0 session_dial_fail session0 [9] rfl rfl rfl rfl
      rfl (fun _ => rfl) rfl).1,
   (C10_open_not_atomic chan0 session_dial_fail session0 [9] rfl rfl rfl rfl
      rfl (fun _ => rfl) rfl).2.2.2.2.2.1,
   (C10_open_not_atomic chan0 session_dial_fail session0 [9] rfl rfl rfl rfl
      rfl (fun _ => rfl) rfl).2.2.2.2.2.2.1⟩
